import Mathlib

/-!
Verification of the `django-concrete-settings` core against its
natural-language specification.

Shallow embedding of the three source files

  * `concrete_settings/__init__.py`          (Python-version import check)
  * `concrete_settings/validators/validator.py` (Validator protocol signature)
  * `concrete_settings/contrib/settings/uuid.py` (UUIDSetting)

together with models, written from the specification's words, of the parts
of the package not present in the sources (the base `Setting` descriptor's
`get_value`/`set_value` and the container's name-binding step).

Python values are embedded as the inductive `PyValue`; Python exceptions as
`PyError`; fallible operations return `Except PyError _`; the mutable
owner-scoped storage is passed explicitly as `SettingsInstance`.
-/

set_option autoImplicit false
set_option linter.unusedVariables false

deriving instance DecidableEq for Except

namespace ConcreteSettings

/-- The deliverable Python exceptions appearing in the modelled code paths. -/
inductive PyError where
  /-- Python `ValueError` (e.g. "badly formed hexadecimal UUID string"). -/
  | valueError
  /-- Python `TypeError` (e.g. `UUID(None)`, or a bad call binding). -/
  | typeError
  /-- Python `AttributeError` (e.g. `UUID(42)`: `int` has no `.replace`). -/
  | attributeError
  /-- `concrete_settings` `UninitializedError`: read before any write. -/
  | uninitializedError
  /-- `concrete_settings` `SettingNameConflict`: name clash without override. -/
  | settingNameConflict
  /-- `concrete_settings` `ValidationError` raised by a validator. -/
  | validationError (msg : String)
  /-- Python `ImportError` (version gate in `__init__.py`). -/
  | importError
  deriving DecidableEq

/-- Embedded Python values: the value universe the claims need.
`undefined` is the `Undefined` sentinel of `concrete_settings`;
`uuid n` is a `uuid.UUID` object whose 128-bit integer value is `n`;
`none` is Python `None`. -/
inductive PyValue where
  | str (s : String)
  | uuid (n : Nat)
  | int (n : Int)
  | none
  | undefined
  deriving DecidableEq

/-- Recursion core of `replaceAll`, structural on a fuel counter so that it
reduces in the kernel.  Every step consumes at least one character of `s`,
so fuel `s.length` never runs out. -/
def replaceAllAux (pat repl : List Char) : Nat → List Char → List Char
  | _, [] => []
  | 0, s => s
  | fuel + 1, c :: rest =>
    if pat.isPrefixOf (c :: rest) then
      repl ++ replaceAllAux pat repl fuel (rest.drop (pat.length - 1))
    else
      c :: replaceAllAux pat repl fuel rest

/-- Python `str.replace(pat, repl)`: replace every non-overlapping occurrence
of `pat`, scanning left to right.  (The callers below only use non-empty
patterns; an empty pattern is returned unchanged here.) -/
def replaceAll (pat repl : List Char) (s : List Char) : List Char :=
  if pat.isEmpty then s else replaceAllAux pat repl s.length s

/-- Python `str.strip(chars)`: remove leading and trailing characters that
belong to the set `chars`. -/
def stripSet (chars : List Char) (s : List Char) : List Char :=
  ((s.dropWhile (chars.contains ·)).reverse.dropWhile (chars.contains ·)).reverse

/-- A hexadecimal digit as accepted by Python `int(_, 16)` (sign, underscore
and whitespace forms are not modelled; no caller below produces them). -/
def isHexCh (c : Char) : Bool :=
  c.isDigit || ('a' ≤ c && c ≤ 'f') || ('A' ≤ c && c ≤ 'F')

/-- Numeric value of a hexadecimal digit. -/
def hexDigitVal (c : Char) : Nat :=
  if c.isDigit then c.toNat - 48
  else if 'a' ≤ c && c ≤ 'f' then c.toNat - 87
  else c.toNat - 55

/-- Value of a string of hexadecimal digits, most significant first. -/
def hexVal (cs : List Char) : Nat :=
  cs.foldl (fun n c => n * 16 + hexDigitVal c) 0

/-- Modelled from the Python standard library: the `uuid.UUID(hex)`
constructor called with one positional argument, as `UUIDSetting.set_value`
calls it.  On a `str`: strip `urn:`/`uuid:` prefixes and braces, remove
dashes, require exactly 32 hexadecimal digits, else raise `ValueError`.
On `None`: `TypeError` ("one of the hex, bytes, ... arguments must be
given").  On any other object (an `int`, an existing `UUID`, ...):
`AttributeError`, since `hex.replace` is attribute-accessed on it. -/
def uuidCtor : PyValue → Except PyError PyValue
  | .str s =>
    let hex := replaceAll "urn:".data [] s.data
    let hex := replaceAll "uuid:".data [] hex
    let hex := stripSet "\x7b\x7d".data hex
    let hex := replaceAll "-".data [] hex
    if hex.length = 32 && hex.all isHexCh then
      .ok (.uuid (hexVal hex))
    else
      .error .valueError
  | .none => .error .typeError
  | _ => .error .attributeError

/-- A semantic type hint attached to a Setting (`type_hint`). -/
inductive TypeHint where
  /-- `uuid.UUID`, the hint `UUIDSetting.__init__` always installs. -/
  | uuid
  /-- Any other Python type, identified by its name. -/
  | other (tyName : String)
  /-- No hint supplied. -/
  | absent
  deriving DecidableEq

/-- Modelled from the spec: a Settings container instance; `set_value`
"mutates the owner-scoped storage" (§4.1), modelled as an association list
from attribute name to stored value, newest binding first. -/
structure SettingsInstance where
  storage : List (String × PyValue)
  deriving DecidableEq

/-- The observable attributes of a Setting, without its validator functions
(so that validator arguments can mention the setting they check without a
circular type).  Mirrors the `Setting` attributes of spec §3. -/
structure SettingView where
  value : PyValue
  doc : String
  type_hint : TypeHint
  override : Bool
  name : String
  deriving DecidableEq

/-- The arguments a validator is called with, per the Validator protocol of
`validators/validator.py`: the value, then keyword arguments `name`, `owner`
and `setting`, each `Optional` (defaulting to `None`, here `Option.none`). -/
structure ValidatorArgs where
  value : PyValue
  name : Option String
  owner : Option SettingsInstance
  setting : Option SettingView
  deriving DecidableEq

/-- A validator: a callable that raises (returns `.error`) if a value is
wrong, per `validators/validator.py`. -/
abbrev Validator := ValidatorArgs → Except PyError Unit

/-- Modelled from the spec (§3, §4.1): the Setting descriptor's attributes —
`value` (may be the `Undefined` sentinel), `doc`, ordered `validators`,
`type_hint`, `override`, and the attribute `name` bound at container-class
construction time. -/
structure Setting where
  value : PyValue
  doc : String
  validators : List Validator
  type_hint : TypeHint
  override : Bool
  name : String

/-- The view of a Setting passed to its validators. -/
def Setting.view (s : Setting) : SettingView :=
  ⟨s.value, s.doc, s.type_hint, s.override, s.name⟩

/-- The argument record `(value, name=…, owner=…, setting=…)` with which
`set_value` invokes every validator. -/
def mkArgs (s : Setting) (owner : SettingsInstance) (val : PyValue) :
    ValidatorArgs :=
  ⟨val, some s.name, some owner, some s.view⟩

/-- Modelled from the spec (§4.1, §4.3): run the validators in declaration
order; the first one that raises stops the chain and its error propagates. -/
def runValidators : List Validator → ValidatorArgs → Except PyError Unit
  | [], _ => .ok ()
  | v :: rest, args =>
    match v args with
    | .error e => .error e
    | .ok _ => runValidators rest args

/-- Instrumented variant of `runValidators` that also records the argument
record of every invocation actually performed, so that "validator *i* was
(not) invoked" becomes observable. -/
def runValidatorsLog :
    List Validator → ValidatorArgs → List ValidatorArgs × Except PyError Unit
  | [], _ => ([], .ok ())
  | v :: rest, args =>
    match v args with
    | .error e => ([args], .error e)
    | .ok _ =>
      (args :: (runValidatorsLog rest args).1, (runValidatorsLog rest args).2)

/-- Modelled from the spec (§4.1): `Setting.set_value(owner, val)` runs each
validator in declaration order with `(value, name, owner, setting)`; the
first validator that raises stops the chain and the error propagates — no
value is stored on validation failure (an `.error` result carries no new
owner state).  On success the owner-scoped storage gains the value. -/
def Setting.set_value (s : Setting) (owner : SettingsInstance)
    (val : PyValue) : Except PyError SettingsInstance :=
  match runValidators s.validators (mkArgs s owner val) with
  | .error e => .error e
  | .ok _ => .ok ⟨(s.name, val) :: owner.storage⟩

/-- Modelled from the spec (§4.1): `Setting.get_value(owner)` returns the
currently bound value for the container instance; if none was ever stored it
falls back to the construction-time initial value, and fails with
`UninitializedError` if that is still the `Undefined` sentinel. -/
def Setting.get_value (s : Setting) (owner : SettingsInstance) :
    Except PyError PyValue :=
  match owner.storage.lookup s.name with
  | some v => .ok v
  | none =>
    if s.value = PyValue.undefined then .error .uninitializedError
    else .ok s.value

/-- A value passed as an extra keyword argument (swallowed by the `**ignore`
parameter of `UUIDSetting.__init__`); it may in particular be a
caller-supplied `type_hint`. -/
inductive KwVal where
  | py (v : PyValue)
  | hint (t : TypeHint)
  deriving DecidableEq

namespace UUIDSetting

/-- The constructor `UUIDSetting.__init__` from `contrib/settings/uuid.py`:
accepts `value`,
keyword-only `doc`, `validators`, `override` plus arbitrary extra keyword
arguments `**ignore`, and delegates to `Setting.__init__` forcing
`type_hint=UUID` and discarding `ignore` entirely.  (The attribute name is
bound later, at container-class construction; it starts out unbound,
modelled as `""`.) -/
def init (value : PyValue) (doc : String) (validators : List Validator)
    (override : Bool) (ignore : List (String × KwVal)) : Setting :=
  { value := value
    doc := doc
    validators := validators
    type_hint := TypeHint.uuid
    override := override
    name := "" }

/-- The method `UUIDSetting.set_value` from `contrib/settings/uuid.py`:

```python
def set_value(self, owner, val):
    try:
        val = UUID(val)
    except ValueError:
        pass
    super().set_value(owner, val)
```

Only `ValueError` is caught; any other exception from `UUID(val)`
propagates. -/
def set_value (s : Setting) (owner : SettingsInstance) (val : PyValue) :
    Except PyError SettingsInstance :=
  match uuidCtor val with
  | .ok coerced => Setting.set_value s owner coerced
  | .error .valueError => Setting.set_value s owner val
  | .error e => .error e

end UUIDSetting

/-- Modelled from the spec (§4.2): container-class construction.  Starting
from the effective name → Setting map of the base classes, process the own
class body's declarations in order: a declaration whose name is already
present (inherited, or declared earlier in the same body) and whose setting
lacks `override=True` is a fatal `SettingNameConflict`; otherwise the
setting is told its attribute name and shadows any previous entry. -/
def buildClass (acc : List (String × Setting)) :
    List (String × Setting) → Except PyError (List (String × Setting))
  | [] => .ok acc
  | (n, s) :: rest =>
    if (acc.lookup n).isSome && !s.override then .error .settingNameConflict
    else buildClass ((n, { s with name := n }) :: acc) rest

/-- Python tuple comparison `(a, b) < (c, d)`: lexicographic. -/
def tupleLt : Nat × Nat → Nat × Nat → Bool
  | (a, b), (c, d) => a < c || (a == c && b < d)

/-- The import-time gate of `concrete_settings/__init__.py`:

```python
PY_VERSION = (sys.version_info.major, sys.version_info.minor)
PY_36 = (3, 6)
if PY_VERSION < PY_36:
    raise ImportError(...)
```
-/
def pyVersionCheck (major minor : Nat) : Except PyError Unit :=
  if tupleLt (major, minor) (3, 6) then .error .importError else .ok ()

/-- Kind of a parameter in a Python signature (the Validator protocol only
uses these two kinds; it has no `*args`/`**kwargs`). -/
inductive ParamKind where
  | posOrKw
  | kwOnly
  deriving DecidableEq

/-- A parameter of a Python signature: name, kind, and default value if any. -/
structure Param (α : Type) where
  name : String
  kind : ParamKind
  dflt : Option α
  deriving DecidableEq

/-- Does this association list bind the same key twice? -/
def hasDupKeys {α : Type} : List (String × α) → Bool
  | [] => false
  | (k, _) :: rest => (rest.lookup k).isSome || hasDupKeys rest

/-- Python call binding for signatures made of positional-or-keyword and
keyword-only parameters: map the positional arguments onto the
positional-or-keyword parameters in order (`TypeError` if too many), reject
unknown, duplicate, or already-positionally-bound keyword arguments, then
fill every remaining parameter from the keyword arguments or its default
(`TypeError` if a parameter stays unbound). -/
def bindCall {α : Type} (params : List (Param α)) (pos : List α)
    (kw : List (String × α)) : Except PyError (List (String × α)) :=
  let posParams := params.filter (fun p => p.kind = ParamKind.posOrKw)
  if pos.length > posParams.length then .error .typeError
  else
    let posBound := (posParams.map (fun p => p.name)).zip pos
    if kw.any (fun a => params.all (fun p => p.name ≠ a.1)) then
      .error .typeError
    else if kw.any (fun a => (posBound.lookup a.1).isSome) then
      .error .typeError
    else if hasDupKeys kw then .error .typeError
    else
      params.mapM (fun p =>
        match posBound.lookup p.name with
        | some v => .ok (p.name, v)
        | none =>
          match kw.lookup p.name with
          | some v => .ok (p.name, v)
          | none =>
            match p.dflt with
            | some d => .ok (p.name, d)
            | none => .error PyError.typeError)

/-- The signature of `Validator.__call__` from `validators/validator.py`
(after binding `self`): one positional-or-keyword parameter `value` and the
keyword-only parameters `name`, `owner`, `setting`, each defaulting to
`None` (represented by `noneVal`). -/
def validatorCallParams {α : Type} (noneVal : α) : List (Param α) :=
  [⟨"value", ParamKind.posOrKw, Option.none⟩,
   ⟨"name", ParamKind.kwOnly, some noneVal⟩,
   ⟨"owner", ParamKind.kwOnly, some noneVal⟩,
   ⟨"setting", ParamKind.kwOnly, some noneVal⟩]

/-- An argument value in a call to a validator: a Python value, the owner
Settings instance, the Setting object (its view), or `None`. -/
inductive ArgVal where
  | val (v : PyValue)
  | ownerRef (o : SettingsInstance)
  | settingRef (s : SettingView)
  | pyNone
  deriving DecidableEq

/-- A `UUIDSetting` as produced by `UUIDSetting.__init__` with no arguments,
then bound to the attribute name `"id"` at container construction. -/
def demoUUIDSetting : Setting :=
  { UUIDSetting.init PyValue.undefined "" [] false [] with name := "id" }

/-- A plain Setting constructed with the initial value `1`. -/
def demoInitSetting : Setting :=
  ⟨PyValue.int 1, "", [], TypeHint.absent, false, "port"⟩

/-- A plain Setting with no initial value and no override marker. -/
def demoPlainSetting : Setting :=
  ⟨PyValue.undefined, "", [], TypeHint.absent, false, ""⟩

/-- A validator that accepts every value. -/
def vAlwaysOk : Validator := fun _ => Except.ok ()

/-- A validator that rejects every value with a `ValidationError`. -/
def vAlwaysFail : Validator := fun _ =>
  Except.error (PyError.validationError "bad value")

/-- A Setting whose validator chain accepts, then fails, then accepts. -/
def demoChainSetting : Setting :=
  ⟨PyValue.undefined, "", [vAlwaysOk, vAlwaysFail, vAlwaysOk],
   TypeHint.absent, false, "x"⟩

/-! ## Helper lemmas -/

/-- If validators `0..i-1` accept and validator `i` raises `e`, then the
chain raises `e`, raises `e` whatever validators follow position `i`, and
performs exactly `i + 1` invocations. -/
theorem runValidators_first_error (args : ValidatorArgs) (e : PyError) :
    ∀ (i : Nat) (vs : List Validator) (hi : i < vs.length),
      (∀ j (hj : j < i), vs.get ⟨j, Nat.lt_trans hj hi⟩ args = .ok ()) →
      vs.get ⟨i, hi⟩ args = .error e →
      (∀ tail, runValidators (vs.take (i + 1) ++ tail) args = .error e)
      ∧ runValidators vs args = .error e
      ∧ (runValidatorsLog vs args).1.length = i + 1 := by
  intro i
  induction i with
  | zero =>
    intro vs hi hok herr
    cases vs with
    | nil => exact absurd hi (by simp)
    | cons v rest =>
      refine ⟨fun tail => ?_, ?_, ?_⟩ <;>
        simp [runValidators, runValidatorsLog, List.take_succ_cons,
          show v args = .error e from herr]
  | succ k ih =>
    intro vs hi hok herr
    cases vs with
    | nil => exact absurd hi (by simp)
    | cons v rest =>
      have h0 : v args = .ok () := hok 0 (Nat.succ_pos k)
      have hrest :=
        ih rest (Nat.lt_of_succ_lt_succ hi)
          (fun j hj => hok (j + 1) (Nat.succ_lt_succ hj)) herr
      refine ⟨fun tail => ?_, ?_, ?_⟩
      · simp only [List.take_succ_cons, List.cons_append, runValidators, h0]
        exact hrest.1 tail
      · simp only [runValidators, h0]
        exact hrest.2.1
      · simp only [runValidatorsLog, h0, List.length_cons, hrest.2.2]

/-- A `set_value` call whose validator chain raises `e` returns `.error e`
(and hence produces no new owner state). -/
theorem set_value_error_of_runValidators (s : Setting)
    (owner : SettingsInstance) (val : PyValue) (e : PyError)
    (h : runValidators s.validators (mkArgs s owner val) = .error e) :
    Setting.set_value s owner val = .error e := by
  unfold Setting.set_value
  rw [h]

/-- A successful `set_value` stores the value it was given: the subsequent
`get_value` on the resulting owner state returns it. -/
theorem set_value_ok_get (s : Setting) (owner owner2 : SettingsInstance)
    (val : PyValue) (h : Setting.set_value s owner val = .ok owner2) :
    Setting.get_value s owner2 = .ok val := by
  unfold Setting.set_value at h
  cases hr : runValidators s.validators (mkArgs s owner val) with
  | error e => rw [hr] at h; simp at h
  | ok u =>
    rw [hr] at h
    simp only [] at h
    injection h with h2
    subst h2
    simp [Setting.get_value, List.lookup]

/-- Prepending an entry to an association list preserves key presence. -/
theorem lookup_isSome_cons (n m : String) (t : Setting)
    (acc : List (String × Setting)) (h : (acc.lookup n).isSome = true) :
    ((((m, t) :: acc)).lookup n).isSome = true := by
  by_cases hm : (n == m) <;> simp [List.lookup, hm, h]

/-- Declaring a setting whose name is already present in the accumulated
map, without `override=True`, makes container construction fail with
`SettingNameConflict`, wherever the declaration sits in the body. -/
theorem buildClass_error_of_dup (n : String) (s : Setting)
    (hs : s.override = false) :
    ∀ (l1 : List (String × Setting)) (acc : List (String × Setting)),
      (acc.lookup n).isSome = true →
      ∀ l3, buildClass acc (l1 ++ (n, s) :: l3) = .error .settingNameConflict := by
  intro l1
  induction l1 with
  | nil =>
    intro acc h l3
    simp [buildClass, h, hs]
  | cons p rest ih =>
    intro acc h l3
    by_cases hc : ((acc.lookup p.1).isSome && !p.2.override) = true
    · simp [buildClass, hc]
    · simp only [List.cons_append, buildClass, hc, if_neg]
      exact ih ((p.1, { p.2 with name := p.1 }) :: acc)
        (lookup_isSome_cons n p.1 _ acc h) l3

/-- Declaring the same name twice in one class body, the second time without
`override=True`, makes container construction fail with
`SettingNameConflict`. -/
theorem buildClass_error_of_later_dup (n : String) (s2 : Setting)
    (hs : s2.override = false) :
    ∀ (l1 : List (String × Setting)) (acc : List (String × Setting))
      (s1 : Setting) (l2 l3 : List (String × Setting)),
      buildClass acc (l1 ++ (n, s1) :: l2 ++ (n, s2) :: l3)
        = .error .settingNameConflict := by
  intro l1
  induction l1 with
  | nil =>
    intro acc s1 l2 l3
    by_cases hc : ((acc.lookup n).isSome && !s1.override) = true
    · simp [buildClass, hc]
    · simp only [List.nil_append, List.cons_append, buildClass, hc, if_neg]
      refine buildClass_error_of_dup n s2 hs l2 _ ?_ l3
      simp [List.lookup]
  | cons p rest ih =>
    intro acc s1 l2 l3
    by_cases hc : ((acc.lookup p.1).isSome && !p.2.override) = true
    · simp [buildClass, hc]
    · simp only [List.cons_append, buildClass, hc, if_neg]
      exact ih ((p.1, { p.2 with name := p.1 }) :: acc) s1 l2 l3

/-- The instrumented chain agrees with the plain chain and logs one
identical argument record per invocation performed. -/
theorem runValidatorsLog_spec (args : ValidatorArgs) :
    ∀ vs : List Validator,
      (runValidatorsLog vs args).1
        = List.replicate (runValidatorsLog vs args).1.length args
      ∧ (runValidatorsLog vs args).2 = runValidators vs args := by
  intro vs
  induction vs with
  | nil => exact ⟨rfl, rfl⟩
  | cons v rest ih =>
    cases hv : v args with
    | error e => simp [runValidatorsLog, runValidators, hv]
    | ok u =>
      refine ⟨?_, ?_⟩
      · simp only [runValidatorsLog, hv, List.length_cons, List.replicate]
        exact congrArg (args :: ·) ih.1
      · simp only [runValidatorsLog, runValidators, hv]
        exact ih.2

/-! ## Claim theorems -/

/-- C1 (counterexample): the claim says every coercion failure is caught and
the raw value forwarded to the base chain, for every value.  For the value
`42` (an `int`), `UUID(42)` fails with `AttributeError`, which the
`except ValueError` clause does not catch: `UUIDSetting.set_value` raises
from the coercion step, although the base chain itself would have accepted
the raw value. -/
theorem uuid_coercion_failure_raises_counterexample :
    uuidCtor (PyValue.int 42) = .error .attributeError
    ∧ UUIDSetting.set_value demoUUIDSetting ⟨[]⟩ (PyValue.int 42)
        = .error .attributeError
    ∧ Setting.set_value demoUUIDSetting ⟨[]⟩ (PyValue.int 42)
        = .ok ⟨[("id", PyValue.int 42)]⟩
    ∧ UUIDSetting.set_value demoUUIDSetting ⟨[]⟩ (PyValue.int 42)
        ≠ Setting.set_value demoUUIDSetting ⟨[]⟩ (PyValue.int 42) := by
  decide

/-- C1 (amended): for every owner and every value on which the UUID
coercion fails with `ValueError` (as every failing `str` does), the failure
is caught locally and the original raw value is passed unchanged to the
base `Setting.set_value` validation chain; coercion failures of any other
exception class propagate instead. -/
theorem uuid_coercion_valueerror_caught (s : Setting)
    (owner : SettingsInstance) (val : PyValue)
    (h : uuidCtor val = .error .valueError) :
    UUIDSetting.set_value s owner val = Setting.set_value s owner val := by
  unfold UUIDSetting.set_value
  rw [h]

/-- C1 (witness): the amended theorem applied at the failing string
`"not-a-uuid"`. -/
theorem uuid_coercion_valueerror_caught_witness :
    uuidCtor (PyValue.str "not-a-uuid") = .error .valueError
    ∧ UUIDSetting.set_value demoUUIDSetting ⟨[]⟩ (PyValue.str "not-a-uuid")
        = Setting.set_value demoUUIDSetting ⟨[]⟩ (PyValue.str "not-a-uuid") :=
  ⟨by decide,
   uuid_coercion_valueerror_caught demoUUIDSetting ⟨[]⟩
     (PyValue.str "not-a-uuid") (by decide)⟩

/-- C2: a `UUIDSetting` receiving `"123e4567-e89b-12d3-a456-426614174000"`
coerces and stores the parsed UUID value (which `get_value` then returns),
while one receiving `"not-a-uuid"` stores the raw string unchanged, the
coercion failing silently. -/
theorem uuid_setting_scenario :
    (UUIDSetting.set_value demoUUIDSetting ⟨[]⟩
        (PyValue.str "123e4567-e89b-12d3-a456-426614174000")
      = .ok ⟨[("id", PyValue.uuid 0x123e4567e89b12d3a456426614174000)]⟩
     ∧ Setting.get_value demoUUIDSetting
        ⟨[("id", PyValue.uuid 0x123e4567e89b12d3a456426614174000)]⟩
      = .ok (PyValue.uuid 0x123e4567e89b12d3a456426614174000))
    ∧ UUIDSetting.set_value demoUUIDSetting ⟨[]⟩ (PyValue.str "not-a-uuid")
        = .ok ⟨[("id", PyValue.str "not-a-uuid")]⟩
    ∧ Setting.get_value demoUUIDSetting ⟨[("id", PyValue.str "not-a-uuid")]⟩
        = .ok (PyValue.str "not-a-uuid") := by
  decide

/-- C3: if validator `i` of the chain raises `e` (all validators before `i`
accepting), then `set_value` propagates `e` and stores nothing (an `.error`
result carries no new owner state), exactly `i + 1` validator invocations
are performed (so validators after `i` are never invoked), and the outcome
is unchanged whatever validators stand after position `i`. -/
theorem validator_chain_first_error (s : Setting) (owner : SettingsInstance)
    (val : PyValue) (i : Nat) (e : PyError) (hi : i < s.validators.length)
    (hok : ∀ j (hj : j < i),
      s.validators.get ⟨j, Nat.lt_trans hj hi⟩ (mkArgs s owner val) = .ok ())
    (herr : s.validators.get ⟨i, hi⟩ (mkArgs s owner val) = .error e) :
    Setting.set_value s owner val = .error e
    ∧ (runValidatorsLog s.validators (mkArgs s owner val)).1.length = i + 1
    ∧ ∀ tail : List Validator,
        Setting.set_value
          { s with validators := s.validators.take (i + 1) ++ tail }
          owner val = .error e := by
  have h := runValidators_first_error (mkArgs s owner val) e i
    s.validators hi hok herr
  refine ⟨set_value_error_of_runValidators s owner val e h.2.1, h.2.2,
    fun tail => ?_⟩
  exact set_value_error_of_runValidators
    { s with validators := s.validators.take (i + 1) ++ tail }
    owner val e (h.1 tail)

/-- C3 (witness): a chain `[accept, fail, accept]` raises the failure of its
second validator, performs exactly two invocations, and stores nothing. -/
theorem validator_chain_first_error_witness :
    Setting.set_value demoChainSetting ⟨[]⟩ (PyValue.int 0)
      = .error (PyError.validationError "bad value")
    ∧ (runValidatorsLog demoChainSetting.validators
        (mkArgs demoChainSetting ⟨[]⟩ (PyValue.int 0))).1.length = 2 :=
  ⟨(validator_chain_first_error demoChainSetting ⟨[]⟩ (PyValue.int 0) 1
      (PyError.validationError "bad value") (by decide)
      (fun j hj =>
        match j, hj with
        | 0, _ => rfl
        | n + 1, hj => absurd (Nat.lt_of_succ_lt_succ hj) (Nat.not_lt_zero n))
      rfl).1,
   (validator_chain_first_error demoChainSetting ⟨[]⟩ (PyValue.int 0) 1
      (PyError.validationError "bad value") (by decide)
      (fun j hj =>
        match j, hj with
        | 0, _ => rfl
        | n + 1, hj => absurd (Nat.lt_of_succ_lt_succ hj) (Nat.not_lt_zero n))
      rfl).2.1⟩

/-- C4: `get_value` on an instance on which no `set_value` ever stored a
value for this setting fails with `UninitializedError`, unless an initial
value other than the `Undefined` sentinel was supplied at construction, in
which case it returns that value. -/
theorem get_value_before_set (s : Setting) (owner : SettingsInstance)
    (hfresh : owner.storage.lookup s.name = Option.none) :
    (s.value = PyValue.undefined →
      Setting.get_value s owner = .error .uninitializedError)
    ∧ (s.value ≠ PyValue.undefined →
      Setting.get_value s owner = .ok s.value) := by
  constructor <;> intro h <;> simp [Setting.get_value, hfresh, h]

/-- C4 (witness): the theorem applied to a fresh instance, once for a
setting without an initial value and once for one constructed with `1`. -/
theorem get_value_before_set_witness :
    Setting.get_value demoUUIDSetting ⟨[]⟩ = .error .uninitializedError
    ∧ Setting.get_value demoInitSetting ⟨[]⟩ = .ok (PyValue.int 1) :=
  ⟨(get_value_before_set demoUUIDSetting ⟨[]⟩ rfl).1 rfl,
   (get_value_before_set demoInitSetting ⟨[]⟩ rfl).2 (by decide)⟩

/-- C5: container construction fails with `SettingNameConflict` when a class
body declares the same setting name twice and the later declaration lacks
`override=True`, and likewise when a declaration without `override=True`
re-declares a name inherited from the base map. -/
theorem setting_name_conflict (base : List (String × Setting)) (n : String)
    (s2 : Setting) (h2 : s2.override = false) :
    (∀ (l1 : List (String × Setting)) (s1 : Setting)
        (l2 l3 : List (String × Setting)),
      buildClass base (l1 ++ (n, s1) :: l2 ++ (n, s2) :: l3)
        = .error .settingNameConflict)
    ∧ (∀ (l1 l3 : List (String × Setting)),
        (base.lookup n).isSome = true →
        buildClass base (l1 ++ (n, s2) :: l3) = .error .settingNameConflict) :=
  ⟨fun l1 s1 l2 l3 => buildClass_error_of_later_dup n s2 h2 l1 base s1 l2 l3,
   fun l1 l3 h => buildClass_error_of_dup n s2 h2 l1 base h l3⟩

/-- C5 (witness): the theorem applied to a body declaring `"greeting"`
twice without override, and to a body re-declaring an inherited
`"greeting"` without override. -/
theorem setting_name_conflict_witness :
    buildClass [] [("greeting", demoPlainSetting), ("greeting", demoPlainSetting)]
      = .error .settingNameConflict
    ∧ buildClass [("greeting", demoInitSetting)] [("greeting", demoPlainSetting)]
      = .error .settingNameConflict :=
  ⟨(setting_name_conflict [] "greeting" demoPlainSetting rfl).1
      [] demoPlainSetting [] [],
   (setting_name_conflict [("greeting", demoInitSetting)] "greeting"
      demoPlainSetting rfl).2 [] [] (by decide)⟩

/-- C6: a successful `set_value(v)` followed by `get_value()` returns `v`
itself for the base Setting, and for a `UUIDSetting` returns the coerced
UUID when the coercion succeeded and the raw value otherwise. -/
theorem set_get_roundtrip (s : Setting) (owner owner2 : SettingsInstance)
    (val : PyValue) :
    (Setting.set_value s owner val = .ok owner2 →
      Setting.get_value s owner2 = .ok val)
    ∧ (UUIDSetting.set_value s owner val = .ok owner2 →
      Setting.get_value s owner2
        = .ok (match uuidCtor val with | .ok u => u | .error _ => val)) := by
  refine ⟨set_value_ok_get s owner owner2 val, fun h => ?_⟩
  unfold UUIDSetting.set_value at h
  cases hc : uuidCtor val with
  | ok u =>
    rw [hc] at h
    exact set_value_ok_get s owner owner2 u h
  | error e =>
    rw [hc] at h
    cases e
    case valueError => exact set_value_ok_get s owner owner2 val h
    all_goals simp at h

/-- C6 (witness): the theorem applied to a `UUIDSetting` receiving a valid
UUID string: the round-trip returns the parsed UUID value. -/
theorem set_get_roundtrip_witness :
    UUIDSetting.set_value demoUUIDSetting ⟨[]⟩
        (PyValue.str "123e4567-e89b-12d3-a456-426614174000")
      = .ok ⟨[("id", PyValue.uuid 0x123e4567e89b12d3a456426614174000)]⟩
    ∧ Setting.get_value demoUUIDSetting
        ⟨[("id", PyValue.uuid 0x123e4567e89b12d3a456426614174000)]⟩
      = .ok (PyValue.uuid 0x123e4567e89b12d3a456426614174000) :=
  ⟨by decide,
   (set_get_roundtrip demoUUIDSetting ⟨[]⟩
      ⟨[("id", PyValue.uuid 0x123e4567e89b12d3a456426614174000)]⟩
      (PyValue.str "123e4567-e89b-12d3-a456-426614174000")).2 (by decide)⟩

/-- C7: the validator chain invokes every validator it runs with the full
argument record — the value plus `name`, `owner` and `setting` — and that
call shape (`value` positional; `name`, `owner`, `setting` as keyword
arguments) binds successfully against the `Validator.__call__` protocol
signature, each parameter receiving the corresponding argument. -/
theorem validator_invocation_args (s : Setting) (owner : SettingsInstance)
    (val : PyValue) :
    (runValidatorsLog s.validators (mkArgs s owner val)).1
      = List.replicate
          (runValidatorsLog s.validators (mkArgs s owner val)).1.length
          (mkArgs s owner val)
    ∧ (runValidatorsLog s.validators (mkArgs s owner val)).2
      = runValidators s.validators (mkArgs s owner val)
    ∧ mkArgs s owner val
      = ⟨val, some s.name, some owner, some s.view⟩
    ∧ bindCall (validatorCallParams ArgVal.pyNone) [ArgVal.val val]
        [("name", ArgVal.val (PyValue.str s.name)),
         ("owner", ArgVal.ownerRef owner),
         ("setting", ArgVal.settingRef s.view)]
      = .ok [("value", ArgVal.val val),
             ("name", ArgVal.val (PyValue.str s.name)),
             ("owner", ArgVal.ownerRef owner),
             ("setting", ArgVal.settingRef s.view)] :=
  ⟨(runValidatorsLog_spec (mkArgs s owner val) s.validators).1,
   (runValidatorsLog_spec (mkArgs s owner val) s.validators).2,
   rfl, rfl⟩

/-- C8: every `UUIDSetting` construction yields `type_hint = UUID`; the
extra keyword arguments swallowed by `**ignore` (including a caller-supplied
`type_hint`) are discarded entirely, so no construction can produce a
`UUIDSetting` with a different type hint. -/
theorem uuid_setting_type_hint_invariant (value : PyValue) (doc : String)
    (validators : List Validator) (override : Bool)
    (ignore : List (String × KwVal)) :
    (UUIDSetting.init value doc validators override ignore).type_hint
      = TypeHint.uuid
    ∧ UUIDSetting.init value doc validators override ignore
      = UUIDSetting.init value doc validators override []
    ∧ UUIDSetting.init value doc validators override
        [("type_hint", KwVal.hint (TypeHint.other "int"))]
      = UUIDSetting.init value doc validators override [] :=
  ⟨rfl, rfl, rfl⟩

/-- C9: the import-time version gate of `__init__.py` raises `ImportError`
exactly when `(major, minor)` is lexicographically below `(3, 6)`, and
passes on `(3, 6)` or higher. -/
theorem py_version_gate (major minor : Nat) :
    (major < 3 ∨ (major = 3 ∧ minor < 6) →
      pyVersionCheck major minor = .error .importError)
    ∧ (major = 3 ∧ 6 ≤ minor ∨ 3 < major →
      pyVersionCheck major minor = .ok ()) := by
  constructor <;> intro h <;> simp [pyVersionCheck, tupleLt] <;> omega

/-- C9 (witness): the gate raises on Python 3.5 and passes on 3.6. -/
theorem py_version_gate_witness :
    pyVersionCheck 3 5 = .error .importError
    ∧ pyVersionCheck 3 6 = .ok () :=
  ⟨(py_version_gate 3 5).1 (Or.inr ⟨rfl, by decide⟩),
   (py_version_gate 3 6).2 (Or.inl ⟨rfl, by decide⟩)⟩

/-- C10: in the `Validator.__call__` protocol signature, `name`, `owner`
and `setting` are keyword-only with default `None`: a call with just a
value as its sole positional argument binds, the three extras receiving
`None`, while a second positional argument cannot bind (there is only one
positional-or-keyword parameter). -/
theorem validator_protocol_call_defaults (v : PyValue) :
    bindCall (validatorCallParams PyValue.none) [v] []
      = .ok [("value", v), ("name", PyValue.none), ("owner", PyValue.none),
             ("setting", PyValue.none)]
    ∧ ∀ w : PyValue,
        bindCall (validatorCallParams PyValue.none) [v, w] []
          = .error .typeError :=
  ⟨rfl, fun w => rfl⟩
